import Mathlib

/-!
Shallow embedding of the WeCom notification channel module
(heimdallr/channel/wecom.py): message renderers, the webhook channel and
the app channel, with HTTP effects modelled as an explicit responder
function and a list of issued requests.
-/

/-- A minimal JSON value model: the module only builds and reads objects,
strings and integers. -/
inductive Json where
  | str (s : String)
  | num (n : Int)
  | obj (fields : List (String × Json))
  deriving Repr

/-- Dictionary lookup, as in Python subscription rs[k] on a parsed JSON
object; returns none when the key is absent or the value is not an object. -/
def Json.get : Json → String → Option Json
  | .obj fields, k => fields.lookup k
  | _, _ => none

/-- One hex digit, lowercase, as produced by the Python json module. -/
def hexChar (n : Nat) : Char :=
  if n < 10 then Char.ofNat (48 + n) else Char.ofNat (87 + n)

/-- A backslash-u escape of a 16-bit code unit. -/
def uEscape (n : Nat) : String :=
  "\\u" ++ String.mk [hexChar (n / 4096 % 16), hexChar (n / 256 % 16),
    hexChar (n / 16 % 16), hexChar (n % 16)]

/-- Escaping of one character inside a JSON string literal, following the
Python json.dumps defaults (ensure ascii, named escapes for the common
control characters). -/
def jsonEscapeChar (c : Char) : String :=
  if c = '"' then "\\\""
  else if c = '\\' then "\\\\"
  else if c = '\n' then "\\n"
  else if c = '\t' then "\\t"
  else if c = '\r' then "\\r"
  else if c = Char.ofNat 8 then "\\b"
  else if c = Char.ofNat 12 then "\\f"
  else if c.toNat < 32 then uEscape c.toNat
  else if c.toNat < 127 then String.singleton c
  else if c.toNat ≤ 65535 then uEscape c.toNat
  else uEscape (55296 + (c.toNat - 65536) / 1024) ++
    uEscape (56320 + (c.toNat - 65536) % 1024)

/-- A quoted, escaped JSON string literal. -/
def jsonQuote (s : String) : String :=
  "\"" ++ String.join (s.toList.map jsonEscapeChar) ++ "\""

mutual

/-- Serialization of a JSON value with the Python json.dumps default
formatting (item separator comma-space, key separator colon-space). -/
def Json.dumps : Json → String
  | .str s => jsonQuote s
  | .num n => toString n
  | .obj fields => "\x7b" ++ Json.dumpsFields fields ++ "\x7d"

/-- Serialization of the comma-separated field list of a JSON object. -/
def Json.dumpsFields : List (String × Json) → String
  | [] => ""
  | [(k, v)] => jsonQuote k ++ ": " ++ Json.dumps v
  | (k, v) :: rest => jsonQuote k ++ ": " ++ Json.dumps v ++ ", " ++ Json.dumpsFields rest

end

/-- Python string conversion as used by f-string interpolation. For a dict
Python uses repr rather than JSON syntax; no code path in this module
interpolates a dict, so the model reuses the JSON serialization there. -/
def pyStr : Json → String
  | .str s => s
  | .num n => toString n
  | .obj fields => Json.dumps (.obj fields)

/-- The faults this module can raise: its own WecomException with a message,
a Python AttributeError on reading an unset attribute, and a Python KeyError
on a missing response key. -/
inductive PyError where
  | wecomException (msg : String)
  | attributeError (attr : String)
  | keyError (key : String)
  deriving Repr, DecidableEq

/-- The exception raised by both renderers on an unknown msg_type tag. -/
def unsupportedMessageType : PyError := .wecomException "Unsupported message type"

/-- The exception raised by both channels on a renderer variant mismatch. -/
def invalidMessageType : PyError := .wecomException "Invalid message type"

/-- The exception raised when the configured webhook key is empty. -/
def missingWebhookKey : PyError := .wecomException "WecomWebhook key not set"

/-- The exception raised when the configured corp id or secret is empty. -/
def missingCorpCredential : PyError := .wecomException "corp id or secret not set"

/-- The exception raised when the credential exchange returns a nonzero
errcode, carrying the errmsg of the response. -/
def authenticationFailed (errmsg : String) : PyError :=
  .wecomException ("Failed to get access token: " ++ errmsg)

/-- An HTTP request as issued through the requests library: method, full URL
and, for POST, the serialized body. -/
structure HttpRequest where
  method : String
  url : String
  body : Option String
  deriving Repr, DecidableEq

/-- The network environment: a function from request to the parsed JSON of
the response. The module always calls .json() on the response, so the model
returns parsed JSON directly. -/
def Responder : Type := HttpRequest → Json

/-- WecomWebhookMessage: title and body from the Message base class plus a
msg_type tag. -/
structure WecomWebhookMessage where
  title : String
  body : String
  msg_type : String
  deriving Repr, DecidableEq

/-- WecomWebhookMessage.__init__(title, body, msg_type). -/
def WecomWebhookMessage.init (title body msg_type : String) : WecomWebhookMessage :=
  ⟨title, body, msg_type⟩

/-- WecomAppMessage: title, body, msg_type, and an agent_id attribute that is
declared on the class but never assigned by the constructor; none models the
unassigned attribute, whose read raises AttributeError in Python. -/
structure WecomAppMessage where
  title : String
  body : String
  msg_type : String
  agent_id : Option String
  deriving Repr, DecidableEq

/-- WecomAppMessage.__init__(title, body, msg_type): agent_id left unset. -/
def WecomAppMessage.init (title body msg_type : String) : WecomAppMessage :=
  ⟨title, body, msg_type, none⟩

/-- The dict built by WecomWebhookMessage.render_message before json.dumps. -/
def WecomWebhookMessage.renderObj (m : WecomWebhookMessage) : Except PyError Json :=
  if m.msg_type = "text" then
    .ok (.obj [("msgtype", .str "text"),
      ("text", .obj [("content", .str (m.title ++ "\n" ++ m.body))])])
  else if m.msg_type = "markdown" then
    .ok (.obj [("msgtype", .str "markdown"),
      ("markdown", .obj [("content", .str ("### " ++ m.title ++ "\n> " ++ m.body))])])
  else .error unsupportedMessageType

/-- WecomWebhookMessage.render_message: json.dumps of the dict, or the
unsupported message type exception. -/
def WecomWebhookMessage.render_message (m : WecomWebhookMessage) : Except PyError String :=
  (m.renderObj).map Json.dumps

/-- The dict built by WecomAppMessage.render_message before json.dumps.
Reading self.agent_id inside the text and markdown branches raises
AttributeError when the attribute was never assigned. -/
def WecomAppMessage.renderObj (m : WecomAppMessage) : Except PyError Json :=
  if m.msg_type = "text" then
    match m.agent_id with
    | none => .error (.attributeError "agent_id")
    | some aid =>
      .ok (.obj [("touser", .str "@all"), ("msgtype", .str "text"),
        ("agentid", .str aid),
        ("text", .obj [("content", .str (m.title ++ "\n" ++ m.body))]),
        ("safe", .num 0)])
  else if m.msg_type = "markdown" then
    match m.agent_id with
    | none => .error (.attributeError "agent_id")
    | some aid =>
      .ok (.obj [("touser", .str "@all"), ("msgtype", .str "markdown"),
        ("agentid", .str aid),
        ("markdown", .obj [("content", .str ("### " ++ m.title ++ "\n> " ++ m.body))]),
        ("safe", .num 0)])
  else .error unsupportedMessageType

/-- WecomAppMessage.render_message: json.dumps of the dict, or a fault. -/
def WecomAppMessage.render_message (m : WecomAppMessage) : Except PyError String :=
  (m.renderObj).map Json.dumps

/-- The Message abstraction surface: the two renderer variants defined in
this module, plus a constructor standing for any other Message subclass so
that the isinstance dispatch is total over foreign messages too. -/
inductive Message where
  | webhook (m : WecomWebhookMessage)
  | app (m : WecomAppMessage)
  | other (title body : String)
  deriving Repr, DecidableEq

/-- Modelled from the spec: configuration loading is an external
collaborator (heimdallr/config/config.py is not under src/). Per-channel
string values keyed by section name and suffix; none when absent. -/
def Config : Type := String → String → Option String

/-- Modelled from the spec: get_config_str returns the configured string or
the given default when the key is absent. -/
def get_config_str (cfg : Config) (sec suffix dflt : String) : String :=
  (cfg sec suffix).getD dflt

/-- Modelled from the spec: the suffix constants live in
heimdallr/config/definition.py, not under src/; their exact values do not
affect any claim. -/
def SUFFIX_WECOM_KEY : String := "WECOM_KEY"

/-- Modelled from the spec: see SUFFIX_WECOM_KEY. -/
def SUFFIX_WECOM_CORP_ID : String := "WECOM_CORP_ID"

/-- Modelled from the spec: see SUFFIX_WECOM_KEY. -/
def SUFFIX_WECOM_SECRET : String := "WECOM_SECRET"

/-- Python str.upper, as a structurally recursive function so that concrete
instances evaluate; faithful on the ASCII names used for channels. -/
def pyUpper (s : String) : String := String.mk (s.toList.map Char.toUpper)

/-- Modelled from the spec: Channel.get_config_name of the base class
(heimdallr/channel/base.py is not under src/); the spec says configuration
is keyed by the uppercased channel name. -/
def getConfigName (name : String) : String := pyUpper name

/-- Python equality of a JSON value with the integer literal 0, as written
in the source as a comparison of the errcode field with 0. -/
def Json.eqZero : Json → Bool
  | .num n => n == 0
  | _ => false

/-- The response interpretation shared verbatim by both send methods: read
errcode, compare with 0, read errmsg, return the pair; a missing key is a
KeyError fault, in the order Python evaluates the subscriptions. -/
def interpretResponse (rs : Json) : Except PyError (Bool × Json) :=
  match rs.get "errcode" with
  | none => .error (.keyError "errcode")
  | some code =>
    match rs.get "errmsg" with
    | none => .error (.keyError "errmsg")
    | some m => .ok (code.eqZero, m)

/-- WecomWebhook channel state: name from the base Channel, plus the key. -/
structure WecomWebhook where
  name : String
  key : String
  deriving Repr, DecidableEq

/-- Class attribute WecomWebhook.base_url. -/
def WecomWebhook.base_url : String :=
  "https://qyapi.weixin.qq.com/cgi-bin/webhook/send?key="

/-- A WecomWebhook with the class-attribute defaults, before any
_build_channel run. -/
def WecomWebhook.mkDefault (name : String) : WecomWebhook := ⟨name, ""⟩

/-- WecomWebhook._build_channel: store the configured key, fail when it is
empty. -/
def WecomWebhook.build_channel (cfg : Config) (self : WecomWebhook) :
    Except PyError WecomWebhook :=
  let key := get_config_str cfg (getConfigName self.name) SUFFIX_WECOM_KEY ""
  if key = "" then .error missingWebhookKey else .ok ⟨self.name, key⟩

/-- WecomWebhook.__init__: the base __init__ stores the name (and, modelled
from the spec, triggers _build_channel), then __init__ runs _build_channel
again; the second run reads the same configuration and is idempotent. The
result is paired with the list of HTTP requests issued, which is empty. -/
def WecomWebhook.init (cfg : Config) (name : String) :
    List HttpRequest × Except PyError WecomWebhook :=
  ([], match WecomWebhook.build_channel cfg (WecomWebhook.mkDefault name) with
       | .error e => .error e
       | .ok c => WecomWebhook.build_channel cfg c)

/-- WecomApp channel state: name from the base Channel plus the four
class-declared string fields. -/
structure WecomApp where
  name : String
  corp_id : String
  secret : String
  access_token : String
  agent_id : String
  deriving Repr, DecidableEq

/-- Class attribute WecomApp.base_url. -/
def WecomApp.base_url : String :=
  "https://qyapi.weixin.qq.com/cgi-bin/message/send?access_token="

/-- A WecomApp with the class-attribute defaults, before _build_channel. -/
def WecomApp.mkDefault (name : String) : WecomApp := ⟨name, "", "", "", ""⟩

/-- WecomApp._build_channel: read corp id and secret keyed by the uppercased
channel name, fail when either is empty before any request, otherwise issue
the credential-exchange GET; on errcode 0 store the access token (Python
stores the raw response value, observable only through URL interpolation,
modelled by its string form), otherwise fail with the authentication error
carrying errmsg. Returns the issued requests alongside the outcome. -/
def WecomApp.build_channel (cfg : Config) (http : Responder) (self : WecomApp) :
    List HttpRequest × Except PyError WecomApp :=
  let channel_name := pyUpper self.name
  let corp_id := get_config_str cfg channel_name SUFFIX_WECOM_CORP_ID ""
  let secret := get_config_str cfg channel_name SUFFIX_WECOM_SECRET ""
  if corp_id = "" ∨ secret = "" then ([], .error missingCorpCredential)
  else
    let req : HttpRequest := ⟨"GET",
      "https://qyapi.weixin.qq.com/cgi-bin/gettoken?corpid=" ++ corp_id ++
        "&corpsecret=" ++ secret, none⟩
    let rs := http req
    match rs.get "errcode" with
    | none => ([req], .error (.keyError "errcode"))
    | some code =>
      if code.eqZero then
        match rs.get "access_token" with
        | none => ([req], .error (.keyError "access_token"))
        | some tok => ([req], .ok ⟨self.name, corp_id, secret, pyStr tok, self.agent_id⟩)
      else
        match rs.get "errmsg" with
        | none => ([req], .error (.keyError "errmsg"))
        | some m => ([req], .error (authenticationFailed (pyStr m)))

/-- The credential-exchange GET request WecomApp._build_channel issues for a
given configuration and channel name. -/
def WecomApp.authRequest (cfg : Config) (name : String) : HttpRequest :=
  ⟨"GET", "https://qyapi.weixin.qq.com/cgi-bin/gettoken?corpid=" ++
    get_config_str cfg (pyUpper name) SUFFIX_WECOM_CORP_ID "" ++
    "&corpsecret=" ++ get_config_str cfg (pyUpper name) SUFFIX_WECOM_SECRET "",
    none⟩

/-- WecomApp.__init__ calls only the base __init__; modelled from the spec,
constructing a channel triggers credential setup for the App variant, so
the base __init__ stores the name and runs _build_channel. -/
def WecomApp.init (cfg : Config) (name : String) (http : Responder) :
    List HttpRequest × Except PyError WecomApp :=
  WecomApp.build_channel cfg http (WecomApp.mkDefault name)

/-- The outcome of a send: issued requests, the returned pair or the fault,
and the post-state of the channel and of the message argument. -/
structure SendResult (C : Type) where
  requests : List HttpRequest
  result : Except PyError (Bool × Json)
  channel : C
  message : Message

/-- WecomWebhook.send: isinstance check, render, POST to base_url ++ key,
interpret the errcode and errmsg of the response. Rendering happens while
building the POST arguments, so a rendering fault precedes any request. -/
def WecomWebhook.send (self : WecomWebhook) (message : Message) (http : Responder) :
    SendResult WecomWebhook :=
  match message with
  | .webhook m =>
    match m.render_message with
    | .error e => ⟨[], .error e, self, message⟩
    | .ok body =>
      let url := WecomWebhook.base_url ++ self.key
      let req : HttpRequest := ⟨"POST", url, some body⟩
      ⟨[req], interpretResponse (http req), self, message⟩
  | _ => ⟨[], .error invalidMessageType, self, message⟩

/-- WecomApp.send: isinstance check, assignment of message.agent_id from the
channel, render, POST to base_url ++ access_token, interpret the response. -/
def WecomApp.send (self : WecomApp) (message : Message) (http : Responder) :
    SendResult WecomApp :=
  match message with
  | .app m =>
    let m2 : WecomAppMessage := ⟨m.title, m.body, m.msg_type, some self.agent_id⟩
    match m2.render_message with
    | .error e => ⟨[], .error e, self, .app m2⟩
    | .ok msg =>
      let url := WecomApp.base_url ++ self.access_token
      let req : HttpRequest := ⟨"POST", url, some msg⟩
      ⟨[req], interpretResponse (http req), self, .app m2⟩
  | _ => ⟨[], .error invalidMessageType, self, message⟩

/-- C3: for every title and body and for msg_type in the set containing text
and markdown, rendering is deterministic: render_message returns exactly the
JSON serialization of the rendered object, whose content string is title,
newline, body for text and the header-and-quote form for markdown, placed
under the field named after the message type; the app variant additionally
fixes touser to the broadcast target, safe to 0, and includes agentid. -/
theorem render_message_spec (t b aid : String) :
    (WecomWebhookMessage.init t b "text").render_message =
      Except.ok (Json.dumps (.obj [("msgtype", .str "text"),
        ("text", .obj [("content", .str (t ++ "\n" ++ b))])])) ∧
    (WecomWebhookMessage.init t b "markdown").render_message =
      Except.ok (Json.dumps (.obj [("msgtype", .str "markdown"),
        ("markdown", .obj [("content", .str ("### " ++ t ++ "\n> " ++ b))])])) ∧
    (WecomAppMessage.mk t b "text" (some aid)).render_message =
      Except.ok (Json.dumps (.obj [("touser", .str "@all"), ("msgtype", .str "text"),
        ("agentid", .str aid),
        ("text", .obj [("content", .str (t ++ "\n" ++ b))]), ("safe", .num 0)])) ∧
    (WecomAppMessage.mk t b "markdown" (some aid)).render_message =
      Except.ok (Json.dumps (.obj [("touser", .str "@all"), ("msgtype", .str "markdown"),
        ("agentid", .str aid),
        ("markdown", .obj [("content", .str ("### " ++ t ++ "\n> " ++ b))]),
        ("safe", .num 0)])) :=
  ⟨rfl, rfl, rfl, rfl⟩

/-- C4: for every title and body, rendering with a msg_type outside the set
containing text and markdown fails on both variants with the unsupported
message type exception and returns no output. -/
theorem render_unsupported_fails (t b mt : String) (aid : Option String)
    (h1 : mt ≠ "text") (h2 : mt ≠ "markdown") :
    (WecomWebhookMessage.init t b mt).render_message = .error unsupportedMessageType ∧
    (WecomAppMessage.mk t b mt aid).render_message = .error unsupportedMessageType := by
  constructor
  · simp [WecomWebhookMessage.init, WecomWebhookMessage.render_message,
      WecomWebhookMessage.renderObj, h1, h2, Except.map]
  · simp [WecomAppMessage.render_message, WecomAppMessage.renderObj, h1, h2, Except.map]

/-- Witness for C4 at a concrete unsupported tag. -/
theorem render_unsupported_fails_witness :
    (WecomWebhookMessage.init "t" "b" "image").render_message =
      .error unsupportedMessageType ∧
    (WecomAppMessage.mk "t" "b" "image" none).render_message =
      .error unsupportedMessageType :=
  render_unsupported_fails "t" "b" "image" none (by decide) (by decide)

/-- C10: rendering a freshly constructed WecomAppMessage, whose constructor
leaves agent_id unassigned, faults with an AttributeError on agent_id for
both supported msg_type tags. -/
theorem fresh_app_message_render_faults (t b mt : String)
    (h : mt = "text" ∨ mt = "markdown") :
    (WecomAppMessage.init t b mt).render_message =
      .error (PyError.attributeError "agent_id") := by
  rcases h with h | h <;> subst h <;> rfl

/-- Witness for C10 at the constructor default tag. -/
theorem fresh_app_message_render_faults_witness :
    (WecomAppMessage.init "hello" "world" "text").render_message =
      .error (PyError.attributeError "agent_id") :=
  fresh_app_message_render_faults "hello" "world" "text" (Or.inl rfl)

/-- C5: constructing a webhook channel whose configured key is the empty
string fails with the missing-credential exception; with any non-empty
configured key construction succeeds storing that key; either way the list
of issued HTTP requests is empty. -/
theorem webhook_init_spec (cfg : Config) (name k : String)
    (h : cfg (getConfigName name) SUFFIX_WECOM_KEY = some k) :
    (k = "" → WecomWebhook.init cfg name = ([], .error missingWebhookKey)) ∧
    (k ≠ "" → WecomWebhook.init cfg name = ([], .ok ⟨name, k⟩)) := by
  have hk : get_config_str cfg (getConfigName name) SUFFIX_WECOM_KEY "" = k := by
    simp [get_config_str, h]
  refine ⟨fun hke => ?_, fun hk2 => ?_⟩
  · simp [WecomWebhook.init, WecomWebhook.build_channel, WecomWebhook.mkDefault,
      hk, hke]
  · simp [WecomWebhook.init, WecomWebhook.build_channel, WecomWebhook.mkDefault,
      hk, hk2]

/-- Witness for C5: one configuration with an empty key, one with a
non-empty key. -/
theorem webhook_init_spec_witness :
    WecomWebhook.init (fun s suf => if s == "WECOM" && suf == SUFFIX_WECOM_KEY
        then some "" else none) "wecom" = ([], .error missingWebhookKey) ∧
    WecomWebhook.init (fun s suf => if s == "WECOM" && suf == SUFFIX_WECOM_KEY
        then some "k123" else none) "wecom" = ([], .ok ⟨"wecom", "k123"⟩) :=
  ⟨(webhook_init_spec _ "wecom" "" (by decide)).1 rfl,
   (webhook_init_spec _ "wecom" "k123" (by decide)).2 (by decide)⟩

/-- C6: app channel construction with an empty configured corp id or secret,
looked up under the uppercased channel name, fails with the
missing-credential exception and the list of issued HTTP requests is empty,
so the credential-exchange GET is never sent. -/
theorem app_init_missing_credential (cfg : Config) (name : String) (http : Responder)
    (h : get_config_str cfg (pyUpper name) SUFFIX_WECOM_CORP_ID "" = "" ∨
         get_config_str cfg (pyUpper name) SUFFIX_WECOM_SECRET "" = "") :
    WecomApp.init cfg name http = ([], .error missingCorpCredential) := by
  simp only [WecomApp.init, WecomApp.build_channel, WecomApp.mkDefault]
  rw [if_pos h]

/-- Witness for C6 at the empty configuration. -/
theorem app_init_missing_credential_witness :
    WecomApp.init (fun _ _ => none) "wecom" (fun _ => Json.obj []) =
      ([], .error missingCorpCredential) :=
  app_init_missing_credential (fun _ _ => none) "wecom" (fun _ => Json.obj [])
    (Or.inl rfl)

/-- C8: send on a webhook channel with any message value that is not the
webhook-variant renderer, and send on an app channel with any message value
that is not the app-variant renderer, fail with the invalid-message-type
exception, issue no HTTP request, and leave channel and message unchanged. -/
theorem send_invalid_message_type (wh : WecomWebhook) (app : WecomApp)
    (ma : WecomAppMessage) (mw : WecomWebhookMessage) (t b : String)
    (http : Responder) :
    wh.send (.app ma) http = ⟨[], .error invalidMessageType, wh, .app ma⟩ ∧
    wh.send (.other t b) http = ⟨[], .error invalidMessageType, wh, .other t b⟩ ∧
    app.send (.webhook mw) http = ⟨[], .error invalidMessageType, app, .webhook mw⟩ ∧
    app.send (.other t b) http = ⟨[], .error invalidMessageType, app, .other t b⟩ :=
  ⟨rfl, rfl, rfl, rfl⟩

/-- C9: no send mutates the channel, and the only mutation of the message
argument is the app send setting its agent_id to the agent_id stored in the
channel; the webhook send leaves the message unchanged. -/
theorem send_frame (wh : WecomWebhook) (app : WecomApp) (msg : Message)
    (http : Responder) :
    (wh.send msg http).channel = wh ∧
    (app.send msg http).channel = app ∧
    (wh.send msg http).message = msg ∧
    (app.send msg http).message =
      (match msg with
       | .app m => .app ⟨m.title, m.body, m.msg_type, some app.agent_id⟩
       | m => m) := by
  refine ⟨?_, ?_, ?_, ?_⟩ <;> cases msg <;>
    simp only [WecomWebhook.send, WecomApp.send] <;>
    first
      | rfl
      | (rename_i m; rcases m.render_message with e | body <;> rfl)
      | (rename_i m
         rcases (WecomAppMessage.mk m.title m.body m.msg_type
           (some app.agent_id)).render_message with e | body <;> rfl)

/-- C7: when the credential-exchange response has a nonzero errcode, app
channel construction fails with the authentication exception carrying the
errmsg of that response, after issuing exactly the exchange GET; no channel
and hence no access_token results. -/
theorem app_init_auth_failed (cfg : Config) (name : String) (http : Responder)
    (c : Int) (m : String)
    (hcorp : get_config_str cfg (pyUpper name) SUFFIX_WECOM_CORP_ID "" ≠ "")
    (hsec : get_config_str cfg (pyUpper name) SUFFIX_WECOM_SECRET "" ≠ "")
    (hc : (http (WecomApp.authRequest cfg name)).get "errcode" = some (.num c))
    (hne : c ≠ 0)
    (hm : (http (WecomApp.authRequest cfg name)).get "errmsg" = some (.str m)) :
    WecomApp.init cfg name http =
      ([WecomApp.authRequest cfg name], .error (authenticationFailed m)) := by
  simp only [WecomApp.init, WecomApp.build_channel, WecomApp.mkDefault,
    WecomApp.authRequest] at hc hm ⊢
  rw [if_neg (by push_neg; exact ⟨hcorp, hsec⟩)]
  rw [hc]
  simp [Json.eqZero, hne, hm, pyStr]

/-- C2: a send on either channel that receives a response with integer
errcode and string errmsg returns the pair of the comparison of errcode
with 0 and the errmsg, as a value and not a fault. -/
theorem send_errcode_result (wh : WecomWebhook) (app : WecomApp)
    (mw : WecomWebhookMessage) (ma : WecomAppMessage)
    (hw : mw.msg_type = "text" ∨ mw.msg_type = "markdown")
    (ha : ma.msg_type = "text" ∨ ma.msg_type = "markdown")
    (rs : Json) (c : Int) (s : String)
    (hc : rs.get "errcode" = some (.num c))
    (hm : rs.get "errmsg" = some (.str s)) :
    (wh.send (.webhook mw) (fun _ => rs)).result = .ok (c == 0, .str s) ∧
    (app.send (.app ma) (fun _ => rs)).result = .ok (c == 0, .str s) := by
  constructor
  · rcases hw with h | h <;>
      simp [WecomWebhook.send, WecomWebhookMessage.render_message,
        WecomWebhookMessage.renderObj, h, Except.map, interpretResponse, hc, hm,
        Json.eqZero]
  · rcases ha with h | h <;>
      simp [WecomApp.send, WecomAppMessage.render_message,
        WecomAppMessage.renderObj, h, Except.map, interpretResponse, hc, hm,
        Json.eqZero]

theorem app_token_invariant (cfg : Config) (name : String) (http : Responder)
    (reqs : List HttpRequest) (chan : WecomApp) (T : String)
    (hinit : WecomApp.init cfg name http = (reqs, .ok chan))
    (hT : (http (WecomApp.authRequest cfg name)).get "access_token" =
      some (.str T)) :
    chan.access_token = T ∧
    ∀ (msg : Message) (http2 : Responder) (r : HttpRequest),
      r ∈ (chan.send msg http2).requests → r.url = WecomApp.base_url ++ T := by
  have htok : chan.access_token = T := by
    simp only [WecomApp.init, WecomApp.build_channel, WecomApp.mkDefault,
      WecomApp.authRequest] at hinit hT
    split at hinit
    · simp at hinit
    · split at hinit
      · simp at hinit
      · split at hinit
        · split at hinit
          · simp at hinit
          · rename_i tok heq
            rw [hT] at heq
            injection heq with h2
            subst h2
            have h3 := (Prod.mk.injEq _ _ _ _).mp hinit
            injection h3.2 with h4
            rw [← h4]
            rfl
        · split at hinit <;> simp at hinit
  refine ⟨htok, fun msg http2 r hr => ?_⟩
  cases msg with
  | webhook m => simp [WecomApp.send] at hr
  | other t b => simp [WecomApp.send] at hr
  | app m =>
    simp only [WecomApp.send] at hr
    rcases hren : (WecomAppMessage.mk m.title m.body m.msg_type
        (some chan.agent_id)).render_message with e | body
    · rw [hren] at hr
      simp at hr
    · rw [hren] at hr
      simp at hr
      subst hr
      simp [htok]

/-- A concrete configuration giving the wecom channel a corp id and secret. -/
def cfgAppDemo : Config := fun s suf =>
  if s == "WECOM" && suf == SUFFIX_WECOM_CORP_ID then some "cid"
  else if s == "WECOM" && suf == SUFFIX_WECOM_SECRET then some "sec" else none

/-- A responder whose credential exchange succeeds with an empty token. -/
def httpEmptyToken : Responder := fun _ =>
  Json.obj [("errcode", .num 0), ("errmsg", .str "ok"), ("access_token", .str "")]

/-- C1 counterexample: against httpEmptyToken, construction succeeds while
the stored access_token is the empty string, refuting the unconditional
non-emptiness invariant. -/
theorem app_token_nonempty_counterexample :
    (WecomApp.init cfgAppDemo "wecom" httpEmptyToken).2 =
      Except.ok ⟨"wecom", "cid", "sec", "", ""⟩ ∧
    (WecomApp.mk "wecom" "cid" "sec" "" "").access_token = "" :=
  ⟨rfl, rfl⟩

/-- A responder whose credential exchange succeeds with token TOK. -/
def httpTokenDemo : Responder := fun _ =>
  Json.obj [("errcode", .num 0), ("errmsg", .str "ok"), ("access_token", .str "TOK")]

/-- The channel produced by constructing against httpTokenDemo. -/
def appChanDemo : WecomApp := ⟨"wecom", "cid", "sec", "TOK", ""⟩

/-- The send used in the C1 witness. -/
def appSendDemo : SendResult WecomApp :=
  appChanDemo.send (.app (WecomAppMessage.init "t" "b" "text")) httpTokenDemo

/-- The single request issued by appSendDemo. -/
def appSendDemoReq : HttpRequest := appSendDemo.requests.headD ⟨"GET", "", none⟩

/-- Witness for the amended C1 at a concrete construction and send. -/
theorem app_token_invariant_witness :
    appChanDemo.access_token = "TOK" ∧
    appSendDemoReq.url = WecomApp.base_url ++ "TOK" := by
  have h := app_token_invariant cfgAppDemo "wecom" httpTokenDemo
    [WecomApp.authRequest cfgAppDemo "wecom"] appChanDemo "TOK" rfl rfl
  refine ⟨h.1, h.2 (.app (WecomAppMessage.init "t" "b" "text")) httpTokenDemo
    appSendDemoReq ?_⟩
  show appSendDemoReq ∈ appSendDemo.requests
  rw [show appSendDemo.requests = [appSendDemoReq] from rfl]
  exact List.mem_singleton_self _

/-- A responder whose credential exchange is rejected. -/
def httpAuthFail : Responder := fun _ =>
  Json.obj [("errcode", .num 1), ("errmsg", .str "bad secret")]

/-- Witness for C7 at a concrete rejected exchange. -/
theorem app_init_auth_failed_witness :
    WecomApp.init cfgAppDemo "wecom" httpAuthFail =
      ([WecomApp.authRequest cfgAppDemo "wecom"],
        .error (authenticationFailed "bad secret")) :=
  app_init_auth_failed cfgAppDemo "wecom" httpAuthFail 1 "bad secret"
    (by decide) (by decide) rfl (by decide) rfl

/-- The ok response of the spec example. -/
def rsOkDemo : Json := Json.obj [("errcode", .num 0), ("errmsg", .str "ok")]

/-- The rejected response of the spec example. -/
def rsBadDemo : Json :=
  Json.obj [("errcode", .num 93000), ("errmsg", .str "invalid key")]

/-- Witness for C2 at the two concrete responses of the spec example. -/
theorem send_errcode_result_witness :
    ((WecomWebhook.mk "wecom" "k").send
        (.webhook (WecomWebhookMessage.init "t" "b" "text"))
        (fun _ => rsOkDemo)).result = .ok ((0 : Int) == 0, .str "ok") ∧
    ((WecomApp.mk "wecom" "cid" "sec" "TOK" "").send
        (.app (WecomAppMessage.init "t" "b" "text"))
        (fun _ => rsBadDemo)).result =
      .ok ((93000 : Int) == 0, .str "invalid key") :=
  ⟨(send_errcode_result (WecomWebhook.mk "wecom" "k")
      (WecomApp.mk "wecom" "cid" "sec" "TOK" "")
      (WecomWebhookMessage.init "t" "b" "text")
      (WecomAppMessage.init "t" "b" "text") (Or.inl rfl) (Or.inl rfl)
      rsOkDemo 0 "ok" rfl rfl).1,
   (send_errcode_result (WecomWebhook.mk "wecom" "k")
      (WecomApp.mk "wecom" "cid" "sec" "TOK" "")
      (WecomWebhookMessage.init "t" "b" "text")
      (WecomAppMessage.init "t" "b" "text") (Or.inl rfl) (Or.inl rfl)
      rsBadDemo 93000 "invalid key" rfl rfl).2⟩
